import Mathlib

/-!
Verification of the keycloak-cli batch reconciliation engine.

This file is a shallow embedding of the Go sources of the `kc` command-line
tool.  Pure functions of the source (`pick`, `padRight`, `RenderBox`,
`generateStrongPassword`, `validatePasswordStrength`, `resolveTargetRealms`,
`resolveChangeKind`, ...) become Lean functions; the stateful command bodies
become functions from an explicit environment (flag values plus the outcome
of every remote call, given as a backend of response functions) to a trace of
remote CRUD calls and a result.

Modelling conventions, fixed once for the whole file:
* Remote errors: the Go code classifies backend errors by searching the
  lowercased error text for "404" or "409".  We model a backend error as the
  tag it is classified as: `RemoteErr.notFound` stands for an error whose
  text contains "404", `RemoteErr.conflict` for one containing "409",
  `RemoteErr.other` for the rest.
* Traces record the CRUD surface of the remote collaborator
  (probe / create / update / delete / list), which is how the specification
  scopes "remote calls"; the OAuth login round trip is the excluded
  authentication collaborator and is modelled only by its outcome.
* Go strings are `String` where only equality is used and `List Char` where
  lengths and character classes matter; `len` of a Go string is its UTF-8
  byte count, modelled by `utf8ByteLength`.
* Randomness: `crypto/rand.Int(reader, big.NewInt k)` returns an arbitrary
  value in `[0, k)`; we model the random source as a function
  `draw : Nat → Nat`, reduced modulo the pool size at use, so that every
  possible outcome of the draws is represented.
-/

namespace KC

/-- Classification of a remote error, as the Go code performs it by
substring search on the error text ("404" → notFound, "409" → conflict). -/
inductive RemoteErr
  | notFound
  | conflict
  | other (msg : String)
  deriving DecidableEq, Repr

/-- One remote CRUD call, as recorded in an execution trace. -/
inductive Call
  | getRealms
  | getRole (realm name : String)
  | createRole (realm name desc : String)
  | updateRole (realm name : String)
  | deleteRole (realm name : String)
  | getClients (realm cid : String)
  | createClient (realm cid : String)
  | updateClient (realm cid : String)
  | getUsers (realm username : String)
  | createUser (realm username : String)
  | getClientRole (realm clientID name : String)
  | createClientRole (realm clientID name desc : String)
  | addRealmRolesToUser (realm userID : String)
  | addClientRolesToUser (realm clientID userID : String)
  | getClientScopes (realm : String)
  | createClientScope (realm name : String)
  deriving DecidableEq, Repr

/-- Whether a call is an existence probe / read (as opposed to a mutation). -/
def Call.isProbe : Call → Bool
  | .getRealms => true
  | .getRole _ _ => true
  | .getClients _ _ => true
  | .getUsers _ _ => true
  | .getClientRole _ _ _ => true
  | .getClientScopes _ => true
  | _ => false

/-- A fatal batch outcome: either a Go panic (index out of range in `pick`),
a not-found abort, or any other remote failure. -/
inductive Fatal
  | panicIndex
  | notFoundAbort (key : String)
  | remote (what : String)
  deriving DecidableEq, Repr

/-- Per-item outcome on a create path. -/
inductive CreateOutcome
  | created
  | skipped
  deriving DecidableEq, Repr

/-- Per-item outcome on an update path. -/
inductive UpdOutcome
  | updated
  | skipped
  deriving DecidableEq, Repr

/-- Per-item outcome on a delete path. -/
inductive DelOutcome
  | deleted
  | skipped
  deriving DecidableEq, Repr

/-! ## Target resolution (src/unnamed/part_004 `resolveRealmsForClients`,
and the realm-resolution block duplicated in the roles commands of
src/unnamed/part_003) -/

/-- gocloak `RealmRepresentation`: the realm name pointer may be nil. -/
structure RealmRep where
  realm : Option String
  deriving DecidableEq, Repr

/-- The outcomes of the remote calls a resolver can make: the login round
trip (authentication collaborator, not part of the CRUD trace) and the
realm listing. -/
structure ResolverEnv where
  login : Except RemoteErr Unit
  realmsListing : Except RemoteErr (List RealmRep)

/-- Collecting the names of the listed realms, skipping entries whose
realm-name pointer is nil, exactly as the Go `for … if r.Realm != nil`
loops do. -/
def collectRealmNames (rs : List RealmRep) : List String :=
  rs.filterMap (·.realm)

/-- Function `resolveRealmsForClients` (src/unnamed/part_004 lines 49-79).
Returns the CRUD calls made and either the resolved realm list or the
resolution error. -/
def resolveRealmsForClients (env : ResolverEnv) (clientsAllRealms : Bool)
    (clientsRealms : List String) (defaultRealm configRealm : String) :
    List Call × Except String (List String) :=
  if clientsAllRealms then
    match env.login with
    | .error _ => ([], .error "login failed")
    | .ok _ =>
      match env.realmsListing with
      | .error _ => ([Call.getRealms], .error "failed listing realms")
      | .ok rs => ([Call.getRealms], .ok (collectRealmNames rs))
  else if clientsRealms ≠ [] then
    ([], .ok clientsRealms)
  else
    let r := if defaultRealm ≠ "" then defaultRealm else configRealm
    if r ≠ "" then ([], .ok [r])
    else ([], .error "target realm not specified. Use --realm or set realm in config.json")

/-- The realm-resolution block inlined in every roles command
(src/unnamed/part_003 lines 169-192): all-realms listing, else the chain
command flag → global `--realm` → config realm.  The login of the roles
commands happens before this block and is part of the surrounding command,
so only the listing appears here. -/
def resolveRealmsForRoles (realmsListing : Except RemoteErr (List RealmRep))
    (allRealms : Bool) (rolesRealm defaultRealm configRealm : String) :
    List Call × Except String (List String) :=
  if allRealms then
    match realmsListing with
    | .error _ => ([Call.getRealms], .error "failed listing realms")
    | .ok rs => ([Call.getRealms], .ok (collectRealmNames rs))
  else
    let r0 := if rolesRealm ≠ "" then rolesRealm else defaultRealm
    let r := if r0 ≠ "" then r0 else configRealm
    if r ≠ "" then ([], .ok [r])
    else ([], .error "target realm not specified. Use --realm or set realm in config.json")

/-! ## Roles commands (src/unnamed/part_003) -/

/-- gocloak `Role`: name and description pointers. -/
structure RoleRep where
  name : Option String
  description : Option String
  deriving DecidableEq, Repr

/-- The remote responses the roles commands can receive, per realm and
natural key. -/
structure RolesBackend where
  getRealmRole : String → String → Except RemoteErr RoleRep
  createRealmRole : String → String → String → Except RemoteErr Unit
  updateRealmRole : String → String → RoleRep → Except RemoteErr Unit
  deleteRealmRole : String → String → Except RemoteErr Unit

/-- The 0/1/N value binding used by the roles and users create commands:
one value broadcasts, N values bind positionally, otherwise the zero value
is used (the commands validate the length beforehand). -/
def bindOneN (vals : List String) (total i : Nat) : String :=
  if vals.length = 1 then vals.getD 0 ""
  else if vals.length = total then vals.getD i ""
  else ""

/-- The roles create validation (src/unnamed/part_003 lines 156-162):
at least one name, and a description count of 0, 1 or N. -/
def rolesCreateValidate (roleNames roleDescriptions : List String) :
    Except String Unit :=
  if roleNames = [] then .error "missing --name: provide at least one --name"
  else if ¬(roleDescriptions.length = 0 ∨ roleDescriptions.length = 1 ∨
      roleDescriptions.length = roleNames.length) then
    .error "invalid descriptions"
  else .ok ()

/-- One (realm, item) step of `rolesCreateCmd` (src/unnamed/part_003
lines 196-229): probe `GetRealmRole`; found → skipped; a probe error other
than 404 is fatal; otherwise bind the description and `CreateRealmRole`,
any create error being fatal. -/
def rolesCreateItem (B : RolesBackend) (descs : List String) (total : Nat)
    (realm : String) (i : Nat) (rn : String) :
    List Call × Except Fatal CreateOutcome :=
  match B.getRealmRole realm rn with
  | .ok _ => ([Call.getRole realm rn], .ok .skipped)
  | .error .notFound =>
    let desc := bindOneN descs total i
    match B.createRealmRole realm rn desc with
    | .ok _ => ([Call.getRole realm rn, Call.createRole realm rn desc], .ok .created)
    | .error _ =>
      ([Call.getRole realm rn, Call.createRole realm rn desc],
       .error (.remote ("failed creating role " ++ rn)))
  | .error _ => ([Call.getRole realm rn], .error (.remote "failed checking role"))

/-- The inner item loop of `rolesCreateCmd` over the enumerated names,
threading the created/skipped counters and aborting on the first fatal
outcome. -/
def rolesCreateItems (B : RolesBackend) (descs : List String) (total : Nat)
    (realm : String) : List (Nat × String) → Nat × Nat →
    List Call × Except Fatal (Nat × Nat)
  | [], acc => ([], .ok acc)
  | (i, rn) :: rest, (cr, sk) =>
    let step := rolesCreateItem B descs total realm i rn
    match step.2 with
    | .error f => (step.1, .error f)
    | .ok .created =>
      let next := rolesCreateItems B descs total realm rest (cr + 1, sk)
      (step.1 ++ next.1, next.2)
    | .ok .skipped =>
      let next := rolesCreateItems B descs total realm rest (cr, sk + 1)
      (step.1 ++ next.1, next.2)

/-- The realm-major loop of `rolesCreateCmd`. -/
def runRolesCreate (B : RolesBackend) (names descs : List String) :
    List String → Nat × Nat → List Call × Except Fatal (Nat × Nat)
  | [], acc => ([], .ok acc)
  | realm :: rest, acc =>
    let inner := rolesCreateItems B descs names.length realm names.enum acc
    match inner.2 with
    | .error f => (inner.1, .error f)
    | .ok acc' =>
      let next := runRolesCreate B names descs rest acc'
      (inner.1 ++ next.1, next.2)

/-- One (realm, item) step of `rolesUpdateCmd` (src/unnamed/part_003
lines 290-324): probe `GetRealmRole`; a 404 is skipped under
`--ignore-missing` and aborts the batch otherwise; any other probe error is
fatal; on a hit the description/new-name bindings are applied (1 value
broadcasts, N bind positionally, absent leaves the field) and
`UpdateRealmRole` is called, any error being fatal. -/
def rolesUpdateItem (B : RolesBackend) (descs newNames : List String)
    (total : Nat) (ignoreMissing : Bool) (realm : String) (i : Nat)
    (rn : String) : List Call × Except Fatal UpdOutcome :=
  match B.getRealmRole realm rn with
  | .error .notFound =>
    if ignoreMissing then ([Call.getRole realm rn], .ok .skipped)
    else ([Call.getRole realm rn], .error (.notFoundAbort rn))
  | .error _ => ([Call.getRole realm rn], .error (.remote "failed fetching role"))
  | .ok role =>
    let role1 : RoleRep :=
      { role with description :=
          if descs.length = 1 then some (descs.getD 0 "")
          else if descs.length = total then some (descs.getD i "")
          else role.description }
    let role2 : RoleRep :=
      { role1 with name :=
          if newNames.length = 1 then some (newNames.getD 0 "")
          else if newNames.length = total then some (newNames.getD i "")
          else role1.name }
    match B.updateRealmRole realm rn role2 with
    | .ok _ => ([Call.getRole realm rn, Call.updateRole realm rn], .ok .updated)
    | .error _ =>
      ([Call.getRole realm rn, Call.updateRole realm rn],
       .error (.remote ("failed updating role " ++ rn)))

/-- One (realm, item) step of `rolesDeleteCmd` (src/unnamed/part_003
lines 372-384): `DeleteRealmRole` is called directly, with no prior probe;
a 404 response is skipped under `--ignore-missing` and aborts the batch
otherwise; any other error is fatal. -/
def rolesDeleteItem (B : RolesBackend) (ignoreMissingDel : Bool)
    (realm rn : String) : List Call × Except Fatal DelOutcome :=
  match B.deleteRealmRole realm rn with
  | .ok _ => ([Call.deleteRole realm rn], .ok .deleted)
  | .error .notFound =>
    if ignoreMissingDel then ([Call.deleteRole realm rn], .ok .skipped)
    else ([Call.deleteRole realm rn], .error (.notFoundAbort rn))
  | .error _ => ([Call.deleteRole realm rn], .error (.remote "failed deleting role"))

/-! ## Clients commands (src/unnamed/part_004) -/

/-- Go generic `pick[T any](vals []T, i int) (T, bool)` (src/unnamed/part_004
lines 82-91): a single value is broadcast, more than one value is indexed
positionally — `vals[i]` panics when `i ≥ len(vals)` — and an empty list
yields the absent flag.  The outer `Option` is `none` exactly when the Go
code panics with index out of range; the inner `Option` is the
`(value, present)` pair. -/
def pick {α : Type} (vals : List α) (i : Nat) : Option (Option α) :=
  if vals.length = 1 then (vals.get? 0).map some
  else if vals.length > 1 then (vals.get? i).map some
  else some none

/-- gocloak `Client`: client-id and server-id pointers. -/
structure ClientRep where
  clientID : Option String
  id : Option String
  deriving DecidableEq, Repr

/-- Function `getClientByClientID` (src/unnamed/part_004 lines 93-105) applied to the
outcome of the `GetClients` listing: a listing error propagates; otherwise
the first entry whose client-id matches is returned, and a missing match is
the textual "not found" error. -/
def getClientByClientID (listing : Except RemoteErr (List ClientRep))
    (cid : String) : Except String ClientRep :=
  match listing with
  | .error _ => .error "failed listing clients"
  | .ok cs =>
    match cs.find? (fun c => c.clientID = some cid) with
    | some c => .ok c
    | none => .error ("client " ++ cid ++ " not found")

/-- The flag state of `clients create` / `clients update`
(src/unnamed/part_004 package-level vars, lines 17-35). -/
structure ClientsEnv where
  cliIDs : List String
  cliNames : List String
  cliPublics : List Bool
  cliSecrets : List String
  cliEnabled : List Bool
  cliProtocols : List String
  cliRootURLs : List String
  cliBaseURLs : List String
  cliRedirectURIs : List (List String)
  cliWebOrigins : List (List String)
  cliStandardFlows : List Bool
  cliDirectAccess : List Bool
  cliImplicitFlows : List Bool
  cliServiceAccounts : List Bool

/-- The only up-front validation of `clientsCreateCmd` (src/unnamed/part_004
lines 111-113): at least one `--client-id`.  None of the optional-attribute
lists is length-checked. -/
def clientsCreateValidate (env : ClientsEnv) : Except String Unit :=
  if env.cliIDs = [] then
    .error "missing --client-id: provide at least one --client-id"
  else .ok ()

/-- The field values bound for one client at index `i`. -/
structure BoundClient where
  name : String
  secret : String
  protocol : String
  rootURL : String
  baseURL : String
  enabled : Bool
  publicClient : Bool
  stdFlow : Bool
  direct : Bool
  implicit : Bool
  svcAcct : Bool
  deriving DecidableEq, Repr

/-- The sequence of `pick` calls binding the optional attributes of client
`i` in `clientsCreateCmd` (src/unnamed/part_004 lines 138-174), in source
order; `none` when any of them panics.  String fields default to `""`,
`enabled` defaults to `true`, the remaining booleans to `false`. -/
def bindClientFields (env : ClientsEnv) (i : Nat) : Option BoundClient := do
  let name ← pick env.cliNames i
  let secret ← pick env.cliSecrets i
  let protocol ← pick env.cliProtocols i
  let rootURL ← pick env.cliRootURLs i
  let baseURL ← pick env.cliBaseURLs i
  let enabled ← pick env.cliEnabled i
  let publicClient ← pick env.cliPublics i
  let stdFlow ← pick env.cliStandardFlows i
  let direct ← pick env.cliDirectAccess i
  let implicit ← pick env.cliImplicitFlows i
  let svcAcct ← pick env.cliServiceAccounts i
  pure { name := name.getD "", secret := secret.getD "",
         protocol := protocol.getD "", rootURL := rootURL.getD "",
         baseURL := baseURL.getD "", enabled := enabled.getD true,
         publicClient := publicClient.getD false,
         stdFlow := stdFlow.getD false, direct := direct.getD false,
         implicit := implicit.getD false, svcAcct := svcAcct.getD false }

/-- The remote responses the clients commands can receive. -/
structure ClientsBackend where
  getClients : String → String → Except RemoteErr (List ClientRep)
  createClient : String → String → BoundClient → Except RemoteErr String
  updateClient : String → String → Except RemoteErr Unit

/-- One (realm, item) step of `clientsCreateCmd` (src/unnamed/part_004
lines 128-234): probe via the `GetClients` filter — only a successful
lookup with a non-nil server id skips —, bind the optional attributes via
`pick` (a Go panic aborts everything), `CreateClient` with a 409 downgraded
to a skip, then the optional redirect-URI / web-origin update calls, whose
errors are fatal. -/
def clientsCreateItem (B : ClientsBackend) (env : ClientsEnv)
    (realm : String) (i : Nat) (cid : String) :
    List Call × Except Fatal CreateOutcome :=
  let probe := [Call.getClients realm cid]
  let found := match getClientByClientID (B.getClients realm cid) cid with
    | .ok c => c.id.isSome
    | .error _ => false
  if found then (probe, .ok .skipped)
  else
    match bindClientFields env i with
    | none => (probe, .error .panicIndex)
    | some f =>
      match B.createClient realm cid f with
      | .error .conflict => (probe ++ [Call.createClient realm cid], .ok .skipped)
      | .error _ =>
        (probe ++ [Call.createClient realm cid],
         .error (.remote ("failed creating client " ++ cid)))
      | .ok _ =>
        let t1 := probe ++ [Call.createClient realm cid]
        let needRedirect := i < env.cliRedirectURIs.length ∧
          env.cliRedirectURIs.getD i [] ≠ []
        let needOrigins := i < env.cliWebOrigins.length ∧
          env.cliWebOrigins.getD i [] ≠ []
        if needRedirect then
          match B.updateClient realm cid with
          | .error _ =>
            (t1 ++ [Call.updateClient realm cid],
             .error (.remote "failed setting redirect URIs"))
          | .ok _ =>
            if needOrigins then
              match B.updateClient realm cid with
              | .error _ =>
                (t1 ++ [Call.updateClient realm cid, Call.updateClient realm cid],
                 .error (.remote "failed setting web origins"))
              | .ok _ =>
                (t1 ++ [Call.updateClient realm cid, Call.updateClient realm cid],
                 .ok .created)
            else (t1 ++ [Call.updateClient realm cid], .ok .created)
        else if needOrigins then
          match B.updateClient realm cid with
          | .error _ =>
            (t1 ++ [Call.updateClient realm cid],
             .error (.remote "failed setting web origins"))
          | .ok _ => (t1 ++ [Call.updateClient realm cid], .ok .created)
        else (t1, .ok .created)

/-- Inner item loop of `clientsCreateCmd` over the enumerated client-ids. -/
def clientsCreateItems (B : ClientsBackend) (env : ClientsEnv)
    (realm : String) : List (Nat × String) → Nat × Nat →
    List Call × Except Fatal (Nat × Nat)
  | [], acc => ([], .ok acc)
  | (i, cid) :: rest, (cr, sk) =>
    let step := clientsCreateItem B env realm i cid
    match step.2 with
    | .error f => (step.1, .error f)
    | .ok .created =>
      let next := clientsCreateItems B env realm rest (cr + 1, sk)
      (step.1 ++ next.1, next.2)
    | .ok .skipped =>
      let next := clientsCreateItems B env realm rest (cr, sk + 1)
      (step.1 ++ next.1, next.2)

/-- The realm-major loop of `clientsCreateCmd`. -/
def runClientsCreate (B : ClientsBackend) (env : ClientsEnv) :
    List String → Nat × Nat → List Call × Except Fatal (Nat × Nat)
  | [], acc => ([], .ok acc)
  | realm :: rest, acc =>
    let inner := clientsCreateItems B env realm env.cliIDs.enum acc
    match inner.2 with
    | .error f => (inner.1, .error f)
    | .ok acc' =>
      let next := runClientsCreate B env rest acc'
      (inner.1 ++ next.1, next.2)

/-! ## Password policy engine (src/unnamed/part_004 lines 977-1035) -/

/-- UTF-8 encoding length of a Unicode scalar value; `len` of a Go string
is the sum of these over its runes. -/
def utf8Len (c : Char) : Nat :=
  if c.toNat < 0x80 then 1
  else if c.toNat < 0x800 then 2
  else if c.toNat < 0x10000 then 3
  else 4

/-- Byte length of a Go string given as its rune list. -/
def utf8ByteLength (s : List Char) : Nat :=
  (s.map utf8Len).sum

/-- Go `unicode.IsLower`, restricted to code points ≤ 0xFF (Unicode
category Ll within ASCII and Latin-1: a-z, µ, ß-ö, ø-ÿ).  All strings the
theorems of this file touch stay in that range. -/
def goIsLower (c : Char) : Bool :=
  let n := c.toNat
  (97 ≤ n && n ≤ 122) || n == 0xB5 || (0xDF ≤ n && n ≤ 0xF6) ||
    (0xF8 ≤ n && n ≤ 0xFF)

/-- Go `unicode.IsUpper` on code points ≤ 0xFF (category Lu: A-Z, À-Ö,
Ø-Þ). -/
def goIsUpper (c : Char) : Bool :=
  let n := c.toNat
  (65 ≤ n && n ≤ 90) || (0xC0 ≤ n && n ≤ 0xD6) || (0xD8 ≤ n && n ≤ 0xDE)

/-- Go `unicode.IsDigit` on code points ≤ 0xFF (category Nd: the ASCII
digits only). -/
def goIsDigit (c : Char) : Bool :=
  let n := c.toNat
  48 ≤ n && n ≤ 57

/-- The `default` case of the classification switch in
`validatePasswordStrength`: anything that is neither lower, upper nor
digit counts as special. -/
def goIsSpecial (c : Char) : Bool :=
  !(goIsLower c) && !(goIsUpper c) && !(goIsDigit c)

/-- Function `validatePasswordStrength` (src/unnamed/part_004 lines 977-1000):
reject byte lengths below 6, then require one rune of each of the four
classes, classified by the lower/upper/digit/default switch. -/
def validatePasswordStrength (pw : List Char) : Except String Unit :=
  if utf8ByteLength pw < 6 then
    .error "password must be at least 6 characters long"
  else
    let hasLower := pw.any goIsLower
    let hasUpper := pw.any goIsUpper
    let hasDigit := pw.any goIsDigit
    let hasSpecial := pw.any goIsSpecial
    if !hasLower || !hasUpper || !hasDigit || !hasSpecial then
      .error "password must contain at least one lowercase letter, one uppercase letter, one digit, and one special character"
    else .ok ()

def lowerChars : List Char := "abcdefghijklmnopqrstuvwxyz".toList

def upperChars : List Char := "ABCDEFGHIJKLMNOPQRSTUVWXYZ".toList

def digitChars : List Char := "0123456789".toList

def specialChars : List Char := "!@#$%^&*()-_=+[]\x7b\x7d|;:,.<>/?".toList

def allPwChars : List Char := lowerChars ++ upperChars ++ digitChars ++ specialChars

/-- The four mandatory pools, in the order the generator draws from them. -/
def pwPools : List (List Char) := [lowerChars, upperChars, digitChars, specialChars]

/-- One draw from a pool: `rand.Int(rand.Reader, len pool)` yields an
arbitrary index below the pool size, modelled as the draw value modulo the
pool size. -/
def drawFrom (pool : List Char) (r : Nat) : Char :=
  pool.getD (r % pool.length) ' '

/-- Function `generateStrongPassword` (src/unnamed/part_004 lines 1002-1035):
lengths below 4 are rejected; otherwise positions 0-3 are drawn from the
lower/upper/digit/special pools in that order and every further position
from the union of the pools. -/
def generateStrongPassword (n : Nat) (draw : Nat → Nat) :
    Except String (List Char) :=
  if n < 4 then .error "password length must be at least 4"
  else .ok ((List.range n).map fun i =>
    if i < 4 then drawFrom (pwPools.getD i []) (draw i)
    else drawFrom allPwChars (draw i))

/-! ## Users create command (src/unnamed/part_004 lines 768-975) -/

/-- gocloak `User` as returned by the `GetUsers` search. -/
structure UserRep where
  id : Option String
  deriving DecidableEq, Repr

/-- The user payload assembled by `usersCreateCmd` before `CreateUser`. -/
structure UserPayload where
  username : String
  email : String
  firstName : String
  lastName : String
  enabled : Bool
  emailVerified : Bool
  password : List Char
  deriving DecidableEq, Repr

/-- The remote responses the users create command can receive. -/
structure UsersBackend where
  getUsers : String → String → Except RemoteErr (List UserRep)
  createUser : String → UserPayload → Except RemoteErr String
  getRealmRole : String → String → Except RemoteErr RoleRep
  addRealmRolesToUser : String → String → List String → Except RemoteErr Unit
  getClients : String → String → Except RemoteErr (List ClientRep)
  getClientRole : String → String → String → Except RemoteErr RoleRep
  addClientRolesToUser : String → String → String → List String → Except RemoteErr Unit

/-- The flag state of `usersCreateCmd`. -/
structure UsersCreateEnv where
  usernames : List String
  emails : List String
  firstNames : List String
  lastNames : List String
  passwords : List (List Char)
  usersEnabled : Bool
  realmRoleNames : List String
  clientRoleNames : List String
  clientRoleClientID : String
  draw : Nat → Nat

/-- The `validateSlice` closure of `usersCreateCmd` (src/unnamed/part_004
lines 776-781): an optional slice must have 0, 1 or N entries. -/
def validateSlice (n total : Nat) : Bool :=
  n = 0 || n = 1 || n = total

/-- The validation phase of `usersCreateCmd` (lines 772-793): at least one
username, then the 0/1/N check on each optional slice. -/
def usersCreateValidate (env : UsersCreateEnv) : Except String Unit :=
  if env.usernames = [] then
    .error "missing --username: provide at least one --username"
  else if !(validateSlice env.emails.length env.usernames.length) then
    .error "invalid --email"
  else if !(validateSlice env.firstNames.length env.usernames.length) then
    .error "invalid --first-name"
  else if !(validateSlice env.lastNames.length env.usernames.length) then
    .error "invalid --last-name"
  else if !(validateSlice env.passwords.length env.usernames.length) then
    .error "invalid --password"
  else .ok ()

/-- The 0/1/N binding over rune-list values (the passwords). -/
def bindOneNChars (vals : List (List Char)) (total i : Nat) : List Char :=
  if vals.length = 1 then vals.getD 0 []
  else if vals.length = total then vals.getD i []
  else []

/-- The role-fetching loop inside the realm-role assignment block of
`usersCreateCmd` (lines 919-926): fetch each requested role in order,
aborting at the first fetch error. -/
def fetchRealmRoles (B : UsersBackend) (realm : String) :
    List String → List Call × Except Fatal Unit
  | [] => ([], .ok ())
  | rn :: rest =>
    match B.getRealmRole realm rn with
    | .error _ =>
      ([Call.getRole realm rn], .error (.remote ("failed fetching realm role " ++ rn)))
    | .ok _ =>
      let next := fetchRealmRoles B realm rest
      (Call.getRole realm rn :: next.1, next.2)

/-- The realm-role assignment block of `usersCreateCmd` (lines 918-930):
fetch every requested realm role, any fetch error fatal, then a single
role-assignment call. -/
def usersAssignRealmRoles (B : UsersBackend) (roleNames : List String)
    (realm userID : String) : List Call × Except Fatal Unit :=
  let fetched := fetchRealmRoles B realm roleNames
  match fetched.2 with
  | .error f => (fetched.1, .error f)
  | .ok _ =>
    (fetched.1 ++ [Call.addRealmRolesToUser realm userID],
     match B.addRealmRolesToUser realm userID roleNames with
     | .ok _ => .ok ()
     | .error _ => .error (.remote "failed assigning roles"))

/-- The client-role fetching loop inside the client-role assignment block
of `usersCreateCmd` (lines 941-948). -/
def fetchClientRoles (B : UsersBackend) (realm idOfClient : String) :
    List String → List Call × Except Fatal Unit
  | [] => ([], .ok ())
  | rn :: rest =>
    match B.getClientRole realm idOfClient rn with
    | .error _ =>
      ([Call.getClientRole realm idOfClient rn],
       .error (.remote ("failed fetching client role " ++ rn)))
    | .ok _ =>
      let next := fetchClientRoles B realm idOfClient rest
      (Call.getClientRole realm idOfClient rn :: next.1, next.2)

/-- The client-role assignment block of `usersCreateCmd` (lines 931-952):
required client-id, client lookup, per-role fetch, then one assignment
call. -/
def usersAssignClientRoles (B : UsersBackend) (env : UsersCreateEnv)
    (realm userID : String) : List Call × Except Fatal Unit :=
  if env.clientRoleClientID = "" then
    ([], .error (.remote "missing --client-id when using --client-role"))
  else
    let probe := [Call.getClients realm env.clientRoleClientID]
    match getClientByClientID (B.getClients realm env.clientRoleClientID)
        env.clientRoleClientID with
    | .error _ => (probe, .error (.notFoundAbort env.clientRoleClientID))
    | .ok c =>
      match c.id with
      | none => (probe, .error (.notFoundAbort env.clientRoleClientID))
      | some idOfClient =>
        let fetched := fetchClientRoles B realm idOfClient env.clientRoleNames
        match fetched.2 with
        | .error f => (probe ++ fetched.1, .error f)
        | .ok _ =>
          (probe ++ fetched.1 ++ [Call.addClientRolesToUser realm idOfClient userID],
           match B.addClientRolesToUser realm idOfClient userID
               env.clientRoleNames with
           | .ok _ => .ok ()
           | .error _ => .error (.remote "failed assigning client roles"))

/-- One (realm, item) step of `usersCreateCmd` (lines 831-958): search by
username (any search error fatal; a non-empty result skips), bind
email / first name / last name / password 0/1/N, generate a 12-character
password when none was bound, validate the password (invalid → fatal),
`CreateUser` with a 409 downgraded to a skip, then the optional realm-role
and client-role assignment blocks. -/
def usersCreateItem (B : UsersBackend) (env : UsersCreateEnv)
    (realm : String) (i : Nat) (un : String) :
    List Call × Except Fatal CreateOutcome :=
  let probe := [Call.getUsers realm un]
  match B.getUsers realm un with
  | .error _ => (probe, .error (.remote ("failed searching user " ++ un)))
  | .ok existing =>
    if existing ≠ [] then (probe, .ok .skipped)
    else
      let total := env.usernames.length
      let em := bindOneN env.emails total i
      let fn := bindOneN env.firstNames total i
      let ln := bindOneN env.lastNames total i
      let pw0 := bindOneNChars env.passwords total i
      match (if pw0 = [] then generateStrongPassword 12 env.draw
             else .ok pw0) with
      | .error _ => (probe, .error (.remote "failed generating password"))
      | .ok pw =>
        match validatePasswordStrength pw with
        | .error _ => (probe, .error (.remote ("invalid password for user " ++ un)))
        | .ok _ =>
          let payload : UserPayload :=
            { username := un, email := em, firstName := fn, lastName := ln,
              enabled := env.usersEnabled, emailVerified := em ≠ "",
              password := pw }
          match B.createUser realm payload with
          | .error .conflict =>
            (probe ++ [Call.createUser realm un], .ok .skipped)
          | .error _ =>
            (probe ++ [Call.createUser realm un],
             .error (.remote ("failed creating user " ++ un)))
          | .ok userID =>
            let t1 := probe ++ [Call.createUser realm un]
            let realmStep :=
              if env.realmRoleNames ≠ [] then
                usersAssignRealmRoles B env.realmRoleNames realm userID
              else ([], .ok ())
            match realmStep.2 with
            | .error f => (t1 ++ realmStep.1, .error f)
            | .ok _ =>
              let clientStep :=
                if env.clientRoleNames ≠ [] then
                  usersAssignClientRoles B env realm userID
                else ([], .ok ())
              match clientStep.2 with
              | .error f => (t1 ++ realmStep.1 ++ clientStep.1, .error f)
              | .ok _ => (t1 ++ realmStep.1 ++ clientStep.1, .ok .created)

/-! ## Client-scopes create command (src/cmd/client_scopes.go) -/

/-- gocloak `ClientScope`. -/
structure ScopeRep where
  id : Option String
  name : Option String
  deriving DecidableEq, Repr

/-- The remote responses the client-scopes commands can receive. -/
structure ScopesBackend where
  getClientScopes : String → Except RemoteErr (List ScopeRep)
  createClientScope : String → String → String → String → Except RemoteErr String

/-- Function `findClientScopeByName` (src/cmd/client_scopes.go lines 51-58) applied
to the listing outcome: the first scope with the requested name, a missing
match being the textual "not found" error. -/
def findClientScopeByName (listing : Except RemoteErr (List ScopeRep))
    (nm : String) : Except String ScopeRep :=
  match listing with
  | .error _ => .error "failed listing client scopes"
  | .ok scopes =>
    match scopes.find? (fun s => s.name = some nm) with
    | some s => .ok s
    | none => .error ("client scope " ++ nm ++ " not found")

/-- The validation phase of `clientScopesCreateCmd` (lines 64-70). -/
def clientScopesCreateValidate (csNames csDescriptions csProtocols : List String) :
    Except String Unit :=
  if csNames = [] then .error "missing --name: provide at least one --name"
  else if ¬(csDescriptions.length = 0 ∨ csDescriptions.length = 1 ∨
      csDescriptions.length = csNames.length) then
    .error "invalid descriptions"
  else if ¬(csProtocols.length = 0 ∨ csProtocols.length = 1 ∨
      csProtocols.length = csNames.length) then
    .error "invalid protocols"
  else .ok ()

/-- The protocol binding of `clientScopesCreateCmd` (line 89): 1 value
broadcasts, N bind positionally, absent defaults to "openid-connect". -/
def bindScopeProtocol (protocols : List String) (total i : Nat) : String :=
  if protocols.length = 1 then protocols.getD 0 ""
  else if protocols.length = total then protocols.getD i ""
  else "openid-connect"

/-- One (realm, item) step of `clientScopesCreateCmd` (lines 78-102):
probe via the scope listing — only a successful name match skips —, bind
description and protocol, `CreateClientScope` with a 409 downgraded to a
skip and any other error fatal. -/
def clientScopesCreateItem (B : ScopesBackend)
    (descs protocols : List String) (total : Nat) (realm : String) (i : Nat)
    (n : String) : List Call × Except Fatal CreateOutcome :=
  let probe := [Call.getClientScopes realm]
  match findClientScopeByName (B.getClientScopes realm) n with
  | .ok _ => (probe, .ok .skipped)
  | .error _ =>
    let desc := bindOneN descs total i
    let protocol := bindScopeProtocol protocols total i
    match B.createClientScope realm n desc protocol with
    | .error .conflict => (probe ++ [Call.createClientScope realm n], .ok .skipped)
    | .error _ =>
      (probe ++ [Call.createClientScope realm n],
       .error (.remote ("failed creating client scope " ++ n)))
    | .ok _ => (probe ++ [Call.createClientScope realm n], .ok .created)

/-! ## Client-roles create command (src/cmd/client_roles.go) -/

/-- The remote responses the client-roles create command can receive. -/
structure ClientRolesBackend where
  getClients : String → String → Except RemoteErr (List ClientRep)
  getClientRole : String → String → String → Except RemoteErr RoleRep
  createClientRole : String → String → String → String → Except RemoteErr String

/-- One (realm, item) step of `clientRolesCreateCmd`
(src/cmd/client_roles.go lines 86-116), after the surrounding client
lookup has produced the client's server id: probe `GetClientRole` — found
→ skipped, a probe error other than 404 fatal —, bind the description and
`CreateClientRole`, ANY create error (including a 409 conflict) being
fatal. -/
def clientRolesCreateItem (B : ClientRolesBackend) (descs : List String)
    (total : Nat) (realm clientID : String) (i : Nat) (rn : String) :
    List Call × Except Fatal CreateOutcome :=
  let probe := [Call.getClientRole realm clientID rn]
  match B.getClientRole realm clientID rn with
  | .ok _ => (probe, .ok .skipped)
  | .error .notFound =>
    let desc := bindOneN descs total i
    match B.createClientRole realm clientID rn desc with
    | .ok _ => (probe ++ [Call.createClientRole realm clientID rn desc], .ok .created)
    | .error _ =>
      (probe ++ [Call.createClientRole realm clientID rn desc],
       .error (.remote ("failed creating client role " ++ rn)))
  | .error _ => (probe, .error (.remote "failed checking client role"))

/-! ## Output renderer (src/internal/ui/box.go) -/

/-- Structure `BoxOptions`; the Go strings are modelled as rune lists so that the
length arithmetic is explicit. -/
structure BoxOptions where
  jiraTicket : List Char
  realm : List Char
  title : List Char
  deriving DecidableEq, Repr

/-- Function `buildHeaderText` (box.go lines 40-55): optional Jira/realm parts
joined by " ::: ", else the title, else "Keycloak CLI". -/
def buildHeaderText (opts : BoxOptions) : List Char :=
  let parts : List (List Char) :=
    (if opts.jiraTicket ≠ [] then ["Jira Ticket: ".toList ++ opts.jiraTicket] else [])
      ++ (if opts.realm ≠ [] then ["Current realm: ".toList ++ opts.realm] else [])
  if parts = [] then
    (if opts.title ≠ [] then opts.title else "Keycloak CLI".toList)
  else
    List.intercalate " ::: ".toList parts

/-- Function `padRight` (box.go lines 57-62). -/
def padRight (s : List Char) (width : Nat) : List Char :=
  if s.length ≥ width then s
  else s ++ List.replicate (width - s.length) ' '

/-- The content-width computation of `RenderBox` (box.go lines 13-21):
start from the header length, fold the line lengths keeping the maximum,
then clamp from below at 80. -/
def contentWidth (headerText : List Char) (lines : List (List Char)) : Nat :=
  let w := lines.foldl (fun acc l => if l.length > acc then l.length else acc)
    headerText.length
  if w < 80 then 80 else w

/-- Function `RenderBox` (box.go lines 11-38) as the list of its output rows; the
Go function joins these rows with newlines. -/
def renderBoxRows (lines : List (List Char)) (opts : BoxOptions) :
    List (List Char) :=
  let headerText := buildHeaderText opts
  let w := contentWidth headerText lines
  let topBottom := '|' :: List.replicate (w + 2) ':' ++ ['|']
  [topBottom]
    ++ [('|' :: ' ' :: padRight headerText w) ++ [' ', '|']]
    ++ lines.map (fun l => ('|' :: ' ' :: padRight l w) ++ [' ', '|'])
    ++ [topBottom]

/-! ## Audit recorder and invocation lifecycle (src/cmd/root.go and the
audit package in src/cmd/users.go lines 680-760) -/

/-- The per-invocation state the root command threads through its hooks:
the context flag `ctxKeyEnded` and the audit rows appended so far (as their
status column). -/
structure HookState where
  ended : Bool
  statuses : List String
  deriving DecidableEq, Repr

/-- Wrapper `withErrorEnd` (src/cmd/root.go lines 111-126): on an error from the
wrapped run, log ERROR/END lines, append one audit entry with status
"error" and mark the context ended; the error still propagates. -/
def withErrorEnd (runResult : Except String Unit) (st : HookState) :
    HookState × Except String Unit :=
  match runResult with
  | .error e => ({ ended := true, statuses := st.statuses ++ ["error"] }, .error e)
  | .ok _ => (st, .ok ())

/-- Hook `PersistentPostRunE` (src/cmd/root.go lines 50-64): when the context
was not already ended, append one audit entry with status "ok". -/
def persistentPostRun (st : HookState) : HookState :=
  if st.ended then st
  else { st with statuses := st.statuses ++ ["ok"] }

/-- What can vary across one top-level invocation: whether the two steps of
`PersistentPreRunE` (config load, log-file tee setup) succeed, and the
outcome of the command's `RunE` body. -/
structure InvocationEnv where
  configLoadOk : Bool
  teeSetupOk : Bool
  runResult : Except String Unit

/-- One top-level invocation under cobra's hook semantics: a failing
`PersistentPreRunE` prevents both the run and the post-run hooks; a `RunE`
error prevents `PersistentPostRunE` (which is why `withErrorEnd` appends
the error entry itself).  The result is the list of audit-entry statuses
appended during the invocation. -/
def runInvocation (env : InvocationEnv) : List String :=
  if env.configLoadOk && env.teeSetupOk then
    let st0 : HookState := { ended := false, statuses := [] }
    let step := withErrorEnd env.runResult st0
    match step.2 with
    | .error _ => step.1.statuses
    | .ok _ => (persistentPostRun step.1).statuses
  else []

/-- The fixed header row of the audit CSV (audit package `Append`,
src/cmd/users.go lines 721-738). -/
def auditHeaderRow : List String :=
  ["timestamp", "status", "command_path", "raw_command", "jira",
   "actor_type", "actor_id", "auth_realm", "change_kind", "target_realms",
   "duration"]

/-- The `audit.Append` file semantics (src/cmd/users.go lines 700-760): the
store is `none` when the CSV file does not exist; the header row is
written exactly on creation, and the record is appended in both cases. -/
def auditAppend (store : Option (List (List String))) (row : List String) :
    List (List String) :=
  match store with
  | none => [auditHeaderRow, row]
  | some rows => rows ++ [row]

/-- The process state `appendAudit` (src/cmd/root.go lines 138-159) reads
when it assembles an entry: the global flags, the loaded configuration and
the per-command flag state. -/
structure AuditCtx where
  defaultRealm : String
  configRealm : String
  configAuthRealm : String
  grantType : String
  username : String
  clientID : String
  jiraTicket : String
  auditDetails : String
  rolesRealm : String
  clientsRealms : List String
  usersRealms : List String
  csRealm : String
  allRealms : Bool
  clientsAllRealms : Bool
  usersAllRealms : Bool

/-- Function `resolveActor` (src/cmd/root.go lines 161-169). -/
def resolveActor (s : AuditCtx) : String × String :=
  if s.grantType = "password" ∧ s.username ≠ "" then ("user", s.username)
  else if s.clientID ≠ "" then ("client", s.clientID)
  else ("unknown", "")

/-- Function `resolveTargetRealms` (src/cmd/root.go lines 171-179): the global
`--realm` flag, else the config realm, else the empty string. -/
def resolveTargetRealms (s : AuditCtx) : String :=
  if s.defaultRealm ≠ "" then s.defaultRealm
  else if s.configRealm ≠ "" then s.configRealm
  else ""

/-- Function `resolveChangeKind` (src/cmd/root.go lines 181-216). -/
def resolveChangeKind (path : String) : String :=
  if path = "kc users create" then "users_create"
  else if path = "kc users update" then "users_update"
  else if path = "kc users delete" then "users_delete"
  else if path = "kc clients create" then "clients_create"
  else if path = "kc clients update" then "clients_update"
  else if path = "kc clients delete" then "clients_delete"
  else if path = "kc clients list" then "clients_list"
  else if path = "kc client-scopes create" then "client_scopes_create"
  else if path = "kc client-scopes update" then "client_scopes_update"
  else if path = "kc client-scopes delete" then "client_scopes_delete"
  else if path = "kc client-scopes list" then "client_scopes_list"
  else if path = "kc roles create" then "roles_create"
  else if path = "kc roles update" then "roles_update"
  else if path = "kc roles delete" then "roles_delete"
  else if path = "kc realms list" then "realms_list"
  else path

/-- Structure `audit.Entry` as assembled by `appendAudit` (src/cmd/root.go
lines 143-156); timestamp and duration are opaque parameters here. -/
structure AuditEntry where
  status : String
  commandPath : String
  rawCommand : String
  jira : String
  actorType : String
  actorID : String
  authRealm : String
  changeKind : String
  targetRealms : String
  duration : String
  details : String
  deriving DecidableEq, Repr

/-- The entry construction inside `appendAudit` (src/cmd/root.go
lines 138-159). -/
def mkAuditEntry (s : AuditCtx) (status commandPath rawCommand duration : String) :
    AuditEntry :=
  let actor := resolveActor s
  { status := status
    commandPath := commandPath
    rawCommand := rawCommand
    jira := s.jiraTicket
    actorType := actor.1
    actorID := actor.2
    authRealm := s.configAuthRealm
    changeKind := resolveChangeKind commandPath
    targetRealms := resolveTargetRealms s
    duration := duration
    details := s.auditDetails }

/-! ## Specification-side definitions

These follow the wording of the specification (not the source) and exist
to be compared with the embedded code: the maximum line length the
renderer contract speaks about, and the ASCII character classes the
password-validation contract speaks about. -/

/-- Spec side: the length of the longest line of the box contents. -/
def maxLineLength (lines : List (List Char)) : Nat :=
  lines.foldr (fun l m => max l.length m) 0

/-- Spec side: an ASCII lowercase letter. -/
def asciiLower (c : Char) : Bool := 97 ≤ c.toNat && c.toNat ≤ 122

/-- Spec side: an ASCII uppercase letter. -/
def asciiUpper (c : Char) : Bool := 65 ≤ c.toNat && c.toNat ≤ 90

/-- Spec side: an ASCII digit. -/
def asciiDigit (c : Char) : Bool := 48 ≤ c.toNat && c.toNat ≤ 57

/-- Spec side: "any character that is not an ASCII letter or digit counts
as special". -/
def asciiSpecial (c : Char) : Bool :=
  !(asciiLower c) && !(asciiUpper c) && !(asciiDigit c)

/-! ## Concrete scenario environments used by the per-claim witnesses and
counterexamples -/

/-- C1 scenario flags: three client-ids but two names — a length outside
the {0, 1, N} contract. -/
def cardFlags : ClientsEnv :=
  { cliIDs := ["a", "b", "c"], cliNames := ["x", "y"], cliPublics := [],
    cliSecrets := [], cliEnabled := [], cliProtocols := [], cliRootURLs := [],
    cliBaseURLs := [], cliRedirectURIs := [], cliWebOrigins := [],
    cliStandardFlows := [], cliDirectAccess := [], cliImplicitFlows := [],
    cliServiceAccounts := [] }

/-- C1 scenario backend: no client exists yet and every create succeeds. -/
def cardBackend : ClientsBackend :=
  { getClients := fun _ _ => .ok []
    createClient := fun _ _ _ => .ok "id"
    updateClient := fun _ _ => .ok () }

/-- C2 scenario backend (any clients backend works for an empty realm
list). -/
def emptyRealmsBackend : ClientsBackend :=
  { getClients := fun _ _ => .ok []
    createClient := fun _ _ _ => .ok "id"
    updateClient := fun _ _ => .ok () }

/-- C3 scenario backend: the role probe reports 404 and the create call
itself reports a 409 conflict (the race the specification describes). -/
def conflictRolesBackend : RolesBackend :=
  { getRealmRole := fun _ _ => .error .notFound
    createRealmRole := fun _ _ _ => .error .conflict
    updateRealmRole := fun _ _ _ => .ok ()
    deleteRealmRole := fun _ _ => .ok () }

/-- C4 scenario backend: the delete call reports 404 (role absent). -/
def missingRoleBackend : RolesBackend :=
  { getRealmRole := fun _ _ => .error .notFound
    createRealmRole := fun _ _ _ => .ok ()
    updateRealmRole := fun _ _ _ => .ok ()
    deleteRealmRole := fun _ _ => .error .notFound }

/-- C4 witness backend: probe hits, update succeeds, delete succeeds. -/
def presentRoleBackend : RolesBackend :=
  { getRealmRole := fun _ _ => .ok { name := some "admin", description := none }
    createRealmRole := fun _ _ _ => .ok ()
    updateRealmRole := fun _ _ _ => .ok ()
    deleteRealmRole := fun _ _ => .ok () }

/-- C3 witness backends for the conflict-downgrading resource types. -/
def conflictScopesBackend : ScopesBackend :=
  { getClientScopes := fun _ => .ok []
    createClientScope := fun _ _ _ _ => .error .conflict }

def conflictUsersBackend : UsersBackend :=
  { getUsers := fun _ _ => .ok []
    createUser := fun _ _ => .error .conflict
    getRealmRole := fun _ _ => .ok { name := none, description := none }
    addRealmRolesToUser := fun _ _ _ => .ok ()
    getClients := fun _ _ => .ok []
    getClientRole := fun _ _ _ => .ok { name := none, description := none }
    addClientRolesToUser := fun _ _ _ _ => .ok () }

def conflictUsersEnv : UsersCreateEnv :=
  { usernames := ["alice"], emails := [], firstNames := [], lastNames := [],
    passwords := ["Aa1!xy".toList], usersEnabled := true,
    realmRoleNames := [], clientRoleNames := [], clientRoleClientID := "",
    draw := fun _ => 0 }

def conflictClientsBackend : ClientsBackend :=
  { getClients := fun _ _ => .ok []
    createClient := fun _ _ _ => .error .conflict
    updateClient := fun _ _ => .ok () }

def conflictClientsEnv : ClientsEnv :=
  { cliIDs := ["web"], cliNames := [], cliPublics := [], cliSecrets := [],
    cliEnabled := [], cliProtocols := [], cliRootURLs := [], cliBaseURLs := [],
    cliRedirectURIs := [], cliWebOrigins := [], cliStandardFlows := [],
    cliDirectAccess := [], cliImplicitFlows := [], cliServiceAccounts := [] }

def conflictClientRolesBackend : ClientRolesBackend :=
  { getClients := fun _ _ => .ok [{ clientID := some "web", id := some "uuid" }]
    getClientRole := fun _ _ _ => .error .notFound
    createClientRole := fun _ _ _ _ => .error .conflict }

/-- A roles backend whose responses are never consulted (used with an
empty realm list). -/
def idleRolesBackend : RolesBackend :=
  { getRealmRole := fun _ _ => .error .notFound
    createRealmRole := fun _ _ _ => .ok ()
    updateRealmRole := fun _ _ _ => .ok ()
    deleteRealmRole := fun _ _ => .ok () }

/-! # Theorems -/

/-! ## Shared helper lemmas -/

theorem maxLineLength_cons (x : List Char) (xs : List (List Char)) :
    maxLineLength (x :: xs) = max x.length (maxLineLength xs) := rfl

theorem foldl_lineMax (lines : List (List Char)) (a : Nat) :
    lines.foldl (fun acc l => if l.length > acc then l.length else acc) a
      = max a (maxLineLength lines) := by
  induction lines generalizing a with
  | nil => simp [maxLineLength]
  | cons l ls ih =>
    rw [List.foldl_cons, ih, maxLineLength_cons]
    have h : (if l.length > a then l.length else a) = max a l.length := by
      split <;> omega
    rw [h]
    omega

theorem contentWidth_eq (ht : List Char) (lines : List (List Char)) :
    contentWidth ht lines = max 80 (max ht.length (maxLineLength lines)) := by
  simp only [contentWidth, foldl_lineMax]
  split <;> omega

theorem padRight_eq_append (s : List Char) (w : Nat) (h : s.length ≤ w) :
    padRight s w = s ++ List.replicate (w - s.length) ' ' := by
  unfold padRight
  split
  · have hz : w - s.length = 0 := by omega
    simp [hz]
  · rfl

theorem padRight_length (s : List Char) (w : Nat) (h : s.length ≤ w) :
    (padRight s w).length = w := by
  rw [padRight_eq_append s w h]
  simp
  omega

theorem length_le_maxLineLength {l : List Char} {lines : List (List Char)}
    (h : l ∈ lines) : l.length ≤ maxLineLength lines := by
  induction lines with
  | nil => cases h
  | cons x xs ih =>
    rw [maxLineLength_cons]
    rcases List.mem_cons.mp h with h1 | h2
    · subst h1; omega
    · exact le_trans (ih h2) (le_max_right _ _)

/-! ## C7 — Output renderer -/

/-- C7: the box renderer's content width equals
max(80, header-text length, longest input line length); the header and
every body line are right-padded with spaces to exactly that width and
never truncated (the padded text starts with the original text), and every
rendered row, borders included, has the uniform length width + 4. -/
theorem C7_renderBox_contract (lines : List (List Char)) (opts : BoxOptions) :
    contentWidth (buildHeaderText opts) lines
        = max 80 (max (buildHeaderText opts).length (maxLineLength lines)) ∧
    (padRight (buildHeaderText opts) (contentWidth (buildHeaderText opts) lines)).length
        = contentWidth (buildHeaderText opts) lines ∧
    padRight (buildHeaderText opts) (contentWidth (buildHeaderText opts) lines)
        = buildHeaderText opts ++
          List.replicate
            (contentWidth (buildHeaderText opts) lines - (buildHeaderText opts).length)
            ' ' ∧
    (∀ l, l ∈ lines →
      (padRight l (contentWidth (buildHeaderText opts) lines)).length
          = contentWidth (buildHeaderText opts) lines ∧
      padRight l (contentWidth (buildHeaderText opts) lines)
          = l ++ List.replicate
              (contentWidth (buildHeaderText opts) lines - l.length) ' ') ∧
    (∀ r, r ∈ renderBoxRows lines opts →
      r.length = contentWidth (buildHeaderText opts) lines + 4) := by
  set ht := buildHeaderText opts with hht
  set w := contentWidth ht lines with hw
  have hwid : w = max 80 (max ht.length (maxLineLength lines)) := contentWidth_eq ht lines
  have hhle : ht.length ≤ w := by omega
  have hlle : ∀ l, l ∈ lines → l.length ≤ w := by
    intro l hl
    have := length_le_maxLineLength hl
    omega
  refine ⟨hwid, padRight_length ht w hhle, padRight_eq_append ht w hhle, ?_, ?_⟩
  · intro l hl
    exact ⟨padRight_length l w (hlle l hl), padRight_eq_append l w (hlle l hl)⟩
  · intro r hr
    simp only [renderBoxRows, ← hht, ← hw, List.mem_append, List.mem_singleton,
      List.mem_map] at hr
    rcases hr with ((htb | hhd) | ⟨l, hl, hrow⟩) | htb
    · subst htb; simp
    · subst hhd
      simp [padRight_length ht w hhle]
    · subst hrow
      simp [padRight_length l w (hlle l hl)]
    · subst htb; simp

/-- C7 witness: the contract instantiated at one concrete box. -/
theorem C7_renderBox_contract_witness :
    (padRight ("hi".toList)
        (contentWidth (buildHeaderText ⟨[], [], "Keycloak CLI".toList⟩)
          ["hi".toList])).length
      = contentWidth (buildHeaderText ⟨[], [], "Keycloak CLI".toList⟩)
          ["hi".toList] :=
  ((C7_renderBox_contract ["hi".toList]
      ⟨[], [], "Keycloak CLI".toList⟩).2.2.2.1 ("hi".toList) (by simp)).1

/-! ## C10 — Audit target-realm label -/

/-- C10: the target-realm label of every audit entry is the global
`--realm` flag, else the config realm, else empty; the per-command realm
flags and the all-realms selections (also part of the state) never affect
it — two states agreeing on the two global fields produce the same label
no matter how the per-command fields differ. -/
theorem C10_audit_realm_label :
    (∀ (s : AuditCtx) (status commandPath rawCommand duration : String),
      (mkAuditEntry s status commandPath rawCommand duration).targetRealms
        = (if s.defaultRealm ≠ "" then s.defaultRealm
           else if s.configRealm ≠ "" then s.configRealm else "")) ∧
    (∀ (s t : AuditCtx) (status commandPath rawCommand duration : String),
      s.defaultRealm = t.defaultRealm → s.configRealm = t.configRealm →
      (mkAuditEntry s status commandPath rawCommand duration).targetRealms
        = (mkAuditEntry t status commandPath rawCommand duration).targetRealms) := by
  constructor
  · intro s status commandPath rawCommand duration
    rfl
  · intro s t status commandPath rawCommand duration h1 h2
    simp only [mkAuditEntry, resolveTargetRealms, h1, h2]

/-- C10 witness: two states with the same global `--realm` and config
realm but different per-command realm flags and all-realms selections
yield the same recorded label. -/
theorem C10_audit_realm_label_witness :
    (mkAuditEntry
       { defaultRealm := "global", configRealm := "cfg", configAuthRealm := ""
         grantType := "", username := "", clientID := "", jiraTicket := ""
         auditDetails := "", rolesRealm := "other", clientsRealms := ["x", "y"]
         usersRealms := ["z"], csRealm := "w", allRealms := true
         clientsAllRealms := true, usersAllRealms := true }
       "ok" "kc roles create" "./kc.exe roles create" "1s").targetRealms
      = (mkAuditEntry
       { defaultRealm := "global", configRealm := "cfg", configAuthRealm := ""
         grantType := "", username := "", clientID := "", jiraTicket := ""
         auditDetails := "", rolesRealm := "", clientsRealms := []
         usersRealms := [], csRealm := "", allRealms := false
         clientsAllRealms := false, usersAllRealms := false }
       "ok" "kc roles create" "./kc.exe roles create" "1s").targetRealms :=
  C10_audit_realm_label.2 _ _ "ok" "kc roles create" "./kc.exe roles create" "1s"
    rfl rfl

/-! ## C9 — Audit invariant -/

/-- C9 counterexample: an invocation whose startup fails (the config load
in `PersistentPreRunE` errors) ends at that first fatal error with ZERO
audit entries appended, contradicting "never zero entries … exactly one
AuditEntry is appended per top-level invocation". -/
theorem C9_audit_counterexample :
    runInvocation { configLoadOk := false, teeSetupOk := true,
                    runResult := .ok () } = [] := rfl

/-- C9 amended: every invocation that survives startup
(`PersistentPreRunE` succeeds) appends exactly one audit entry — status
"ok" on normal completion, "error" when the run body fails — while an
invocation failing during startup appends none; the store is created with
the fixed column header exactly when the file did not previously exist. -/
theorem C9_audit_invariant :
    (∀ env : InvocationEnv, env.configLoadOk = true → env.teeSetupOk = true →
      env.runResult = .ok () → runInvocation env = ["ok"]) ∧
    (∀ (env : InvocationEnv) (e : String), env.configLoadOk = true →
      env.teeSetupOk = true → env.runResult = .error e →
      runInvocation env = ["error"]) ∧
    (∀ env : InvocationEnv, env.configLoadOk = false ∨ env.teeSetupOk = false →
      runInvocation env = []) ∧
    (∀ row : List String, auditAppend none row = [auditHeaderRow, row]) ∧
    (∀ (rows : List (List String)) (row : List String),
      auditAppend (some rows) row = rows ++ [row]) := by
  refine ⟨?_, ?_, ?_, fun _ => rfl, fun _ _ => rfl⟩
  · intro env h1 h2 h3
    simp [runInvocation, withErrorEnd, persistentPostRun, h1, h2, h3]
  · intro env e h1 h2 h3
    simp [runInvocation, withErrorEnd, h1, h2, h3]
  · intro env h
    rcases h with h | h <;> simp [runInvocation, h]

/-- C9 witness: a normally completing invocation appends exactly one entry
with status ok, and an invocation whose run body fails appends exactly one
entry with status error. -/
theorem C9_audit_invariant_witness :
    runInvocation { configLoadOk := true, teeSetupOk := true,
                    runResult := .ok () } = ["ok"] ∧
    runInvocation { configLoadOk := true, teeSetupOk := true,
                    runResult := .error "boom" } = ["error"] :=
  ⟨C9_audit_invariant.1 _ rfl rfl rfl,
   C9_audit_invariant.2.1 _ "boom" rfl rfl rfl⟩

/-! ## C2 — Non-empty target invariant -/

/-- C2 counterexample: with "all realms" requested and a backend that
lists zero realms, both resolvers succeed with an EMPTY target set — the
invocation does not fail — and the subsequent batch over zero realms
completes normally with no remote call, contradicting "the resolved target
realm set is non-empty, or the invocation fails". -/
theorem C2_nonempty_target_counterexample :
    resolveRealmsForClients ⟨.ok (), .ok []⟩ true [] "dflt" "cfg"
      = ([Call.getRealms], .ok []) ∧
    resolveRealmsForRoles (.ok []) true "flag" "dflt" "cfg"
      = ([Call.getRealms], .ok []) ∧
    runRolesCreate idleRolesBackend ["admin"] [] [] (0, 0) = ([], .ok (0, 0)) :=
  ⟨rfl, rfl, rfl⟩

/-- C2 amended: when "all realms" is NOT requested the resolved set is
non-empty whenever resolution succeeds (and resolution makes no remote
call); when "all realms" is requested the resolved set is exactly the
named realms the backend returned, which may be empty — in that case the
batch loops over nothing, performs no remote call and completes
normally. -/
theorem C2_nonempty_target :
    (∀ (env : ResolverEnv) (crs : List String) (dr cfg : String)
        (t : List Call) (rs : List String),
      resolveRealmsForClients env false crs dr cfg = (t, .ok rs) →
      rs ≠ [] ∧ t = []) ∧
    (∀ (listing : Except RemoteErr (List RealmRep)) (rr dr cfg : String)
        (t : List Call) (rs : List String),
      resolveRealmsForRoles listing false rr dr cfg = (t, .ok rs) →
      rs ≠ [] ∧ t = []) ∧
    (∀ (crs : List String) (dr cfg : String) (l : List RealmRep),
      resolveRealmsForClients ⟨.ok (), .ok l⟩ true crs dr cfg
        = ([Call.getRealms], .ok (collectRealmNames l))) ∧
    (∀ (B : RolesBackend) (names descs : List String) (acc : Nat × Nat),
      runRolesCreate B names descs [] acc = ([], .ok acc)) ∧
    (∀ (B : ClientsBackend) (env : ClientsEnv) (acc : Nat × Nat),
      runClientsCreate B env [] acc = ([], .ok acc)) := by
  refine ⟨?_, ?_, fun crs dr cfg l => rfl, fun B names descs acc => rfl,
    fun B env acc => rfl⟩
  · intro env crs dr cfg t rs h
    unfold resolveRealmsForClients at h
    rw [if_neg (by simp)] at h
    dsimp only at h
    repeat' split at h
    all_goals
      first
        | (simp only [Prod.mk.injEq, Except.ok.injEq] at h
           obtain ⟨h1, h2⟩ := h
           constructor
           · subst h2
             simp_all
           · first | exact h1 | exact h1.symm)
        | simp at h
  · intro listing rr dr cfg t rs h
    unfold resolveRealmsForRoles at h
    rw [if_neg (by simp)] at h
    dsimp only at h
    repeat' split at h
    all_goals
      first
        | (simp only [Prod.mk.injEq, Except.ok.injEq] at h
           obtain ⟨h1, h2⟩ := h
           constructor
           · subst h2
             simp_all
           · first | exact h1 | exact h1.symm)
        | simp at h

/-- C2 witness: both resolvers at concrete non-all-realms inputs succeed
with non-empty sets and empty call traces. -/
theorem C2_nonempty_target_witness :
    (["demo"] : List String) ≠ [] ∧
    resolveRealmsForClients ⟨.ok (), .ok []⟩ false ["demo"] "" ""
      = ([], .ok ["demo"]) ∧
    resolveRealmsForRoles (.ok []) false "" "" "master" = ([], .ok ["master"]) := by
  have h1 := (C2_nonempty_target.1 ⟨.ok (), .ok []⟩ ["demo"] "" "" [] ["demo"]
    (by rfl)).1
  exact ⟨h1, rfl, rfl⟩

/-! ## C8 — Target resolver precedence -/

/-- C8: resolver precedence.  (1) With "all realms" requested the realm
listing is queried — exactly one remote CRUD call — and every returned
(named) realm is used in returned order; listing a set of named realms
yields exactly those names.  (2) Otherwise a non-empty explicit realm list
is used verbatim with no remote call.  (3)-(4) Otherwise the first
non-empty of the defaults wins as a singleton — for the clients resolver
the global default then the config default, for the roles resolver the
command-level default then the global default then the config default —
with no remote call.  (5) Otherwise resolution fails with no remote
call. -/
theorem C8_target_resolver_precedence :
    (∀ (l : List RealmRep) (crs : List String) (dr cfg : String),
      resolveRealmsForClients ⟨.ok (), .ok l⟩ true crs dr cfg
        = ([Call.getRealms], .ok (collectRealmNames l))) ∧
    (∀ names : List String,
      collectRealmNames (names.map (fun nm => { realm := some nm })) = names) ∧
    (∀ (env : ResolverEnv) (crs : List String) (dr cfg : String), crs ≠ [] →
      resolveRealmsForClients env false crs dr cfg = ([], .ok crs)) ∧
    (∀ (env : ResolverEnv) (dr cfg : String), dr ≠ "" →
      resolveRealmsForClients env false [] dr cfg = ([], .ok [dr])) ∧
    (∀ (env : ResolverEnv) (cfg : String), cfg ≠ "" →
      resolveRealmsForClients env false [] "" cfg = ([], .ok [cfg])) ∧
    (∀ env : ResolverEnv,
      resolveRealmsForClients env false [] "" ""
        = ([], .error "target realm not specified. Use --realm or set realm in config.json")) ∧
    (∀ (listing : Except RemoteErr (List RealmRep)) (l : List RealmRep)
        (rr dr cfg : String), listing = .ok l →
      resolveRealmsForRoles listing true rr dr cfg
        = ([Call.getRealms], .ok (collectRealmNames l))) ∧
    (∀ (listing : Except RemoteErr (List RealmRep)) (rr dr cfg : String),
      rr ≠ "" →
      resolveRealmsForRoles listing false rr dr cfg = ([], .ok [rr])) ∧
    (∀ (listing : Except RemoteErr (List RealmRep)) (dr cfg : String),
      dr ≠ "" →
      resolveRealmsForRoles listing false "" dr cfg = ([], .ok [dr])) ∧
    (∀ (listing : Except RemoteErr (List RealmRep)) (cfg : String), cfg ≠ "" →
      resolveRealmsForRoles listing false "" "" cfg = ([], .ok [cfg])) ∧
    (∀ listing : Except RemoteErr (List RealmRep),
      resolveRealmsForRoles listing false "" "" ""
        = ([], .error "target realm not specified. Use --realm or set realm in config.json")) := by
  refine ⟨fun l crs dr cfg => rfl, ?_, ?_, ?_, ?_, fun env => rfl, ?_, ?_, ?_, ?_,
    fun listing => rfl⟩
  · intro names
    induction names with
    | nil => rfl
    | cons n ns ih =>
      simp only [List.map_cons, collectRealmNames, List.filterMap_cons] at *
      rw [ih]
  · intro env crs dr cfg h
    unfold resolveRealmsForClients
    rw [if_neg (by simp), if_pos h]
  · intro env dr cfg h
    unfold resolveRealmsForClients
    rw [if_neg (by simp), if_neg (by simp)]
    simp [h]
  · intro env cfg h
    unfold resolveRealmsForClients
    rw [if_neg (by simp), if_neg (by simp)]
    simp [h]
  · intro listing l rr dr cfg h
    subst h
    rfl
  · intro listing rr dr cfg h
    unfold resolveRealmsForRoles
    rw [if_neg (by simp)]
    simp [h]
  · intro listing dr cfg h
    unfold resolveRealmsForRoles
    rw [if_neg (by simp)]
    simp [h]
  · intro listing cfg h
    unfold resolveRealmsForRoles
    rw [if_neg (by simp)]
    simp [h]

/-- C8 witness: the precedence at concrete inputs — an all-realms listing
of two named realms used in order with one listing call; an explicit
duplicate-preserving realm list used verbatim; the global default as a
singleton; and the empty-input failure. -/
theorem C8_target_resolver_precedence_witness :
    resolveRealmsForClients
        ⟨.ok (), .ok [{ realm := some "a" }, { realm := some "b" }]⟩ true [] "" ""
      = ([Call.getRealms], .ok ["a", "b"]) ∧
    resolveRealmsForClients ⟨.ok (), .ok []⟩ false ["x", "x", "y"] "d" "c"
      = ([], .ok ["x", "x", "y"]) ∧
    resolveRealmsForClients ⟨.ok (), .ok []⟩ false [] "d" "c" = ([], .ok ["d"]) := by
  refine ⟨?_, ?_, ?_⟩
  · have h := C8_target_resolver_precedence.1
      [{ realm := some "a" }, { realm := some "b" }] [] "" ""
    simpa using h
  · exact C8_target_resolver_precedence.2.2.1 ⟨.ok (), .ok []⟩ ["x", "x", "y"]
      "d" "c" (by simp)
  · exact C8_target_resolver_precedence.2.2.2.1 ⟨.ok (), .ok []⟩ "d" "c" (by simp)

/-! ## C4 — Update/Delete missing-target policy -/

/-- C4 counterexample: on the roles delete path NO existence probe
precedes the mutation — the one and only remote call of the item is the
(mutating) `DeleteRealmRole` attempt itself, issued here against a missing
key, whose 404 answer is then treated as the missing case.  This
contradicts "for every update or delete item, existence is probed before
the mutation". -/
theorem C4_missing_target_counterexample :
    rolesDeleteItem missingRoleBackend true "demo" "ghost"
      = ([Call.deleteRole "demo" "ghost"], .ok .skipped) ∧
    Call.isProbe (Call.deleteRole "demo" "ghost") = false :=
  ⟨rfl, rfl⟩

/-- C4 amended: the roles UPDATE path probes before mutating — the probe
is always the item's first remote call; a found key is mutated, a 404 is
skipped under ignore-missing and aborts the whole batch with a not-found
error otherwise.  The roles DELETE path applies the same
skip-or-abort missing policy, but detects "missing" from the 404 answer of
the directly issued delete call instead of a prior probe. -/
theorem C4_missing_target_policy :
    (∀ (B : RolesBackend) (descs newNames : List String) (total : Nat)
        (im : Bool) (realm : String) (i : Nat) (rn : String),
      (rolesUpdateItem B descs newNames total im realm i rn).1.head?
        = some (Call.getRole realm rn) ∧
      Call.isProbe (Call.getRole realm rn) = true) ∧
    (∀ (B : RolesBackend) (descs newNames : List String) (total : Nat)
        (realm : String) (i : Nat) (rn : String) (role : RoleRep),
      B.getRealmRole realm rn = .ok role →
      (∀ r' : RoleRep, B.updateRealmRole realm rn r' = .ok ()) →
      ∀ im : Bool, rolesUpdateItem B descs newNames total im realm i rn
        = ([Call.getRole realm rn, Call.updateRole realm rn], .ok .updated)) ∧
    (∀ (B : RolesBackend) (descs newNames : List String) (total : Nat)
        (realm : String) (i : Nat) (rn : String),
      B.getRealmRole realm rn = .error .notFound →
      rolesUpdateItem B descs newNames total true realm i rn
        = ([Call.getRole realm rn], .ok .skipped) ∧
      rolesUpdateItem B descs newNames total false realm i rn
        = ([Call.getRole realm rn], .error (.notFoundAbort rn))) ∧
    (∀ (B : RolesBackend) (realm rn : String),
      B.deleteRealmRole realm rn = .ok () →
      ∀ im : Bool, rolesDeleteItem B im realm rn
        = ([Call.deleteRole realm rn], .ok .deleted)) ∧
    (∀ (B : RolesBackend) (realm rn : String),
      B.deleteRealmRole realm rn = .error .notFound →
      rolesDeleteItem B true realm rn
        = ([Call.deleteRole realm rn], .ok .skipped) ∧
      rolesDeleteItem B false realm rn
        = ([Call.deleteRole realm rn], .error (.notFoundAbort rn))) := by
  refine ⟨?_, ?_, ?_, ?_, ?_⟩
  · intro B descs newNames total im realm i rn
    refine ⟨?_, rfl⟩
    unfold rolesUpdateItem
    rcases hget : B.getRealmRole realm rn with e | role
    · cases e <;> simp only [hget] <;> (try split) <;> rfl
    · simp only [hget]
      split <;> rfl
  · intro B descs newNames total realm i rn role hget hupd im
    simp [rolesUpdateItem, hget, hupd]
  · intro B descs newNames total realm i rn hget
    constructor <;> simp [rolesUpdateItem, hget]
  · intro B realm rn hdel im
    simp [rolesDeleteItem, hdel]
  · intro B realm rn hdel
    constructor <;> simp [rolesDeleteItem, hdel]

/-- C4 witness: the amended policy at concrete inputs — an update of a
present role probes then mutates; a delete of a missing role is skipped
with ignore-missing and aborts without it. -/
theorem C4_missing_target_policy_witness :
    rolesUpdateItem presentRoleBackend ["d"] [] 1 false "demo" 0 "admin"
      = ([Call.getRole "demo" "admin", Call.updateRole "demo" "admin"],
         .ok .updated) ∧
    rolesDeleteItem missingRoleBackend false "demo" "ghost"
      = ([Call.deleteRole "demo" "ghost"], .error (.notFoundAbort "ghost")) :=
  ⟨C4_missing_target_policy.2.1 presentRoleBackend ["d"] [] 1 "demo" 0 "admin"
     { name := some "admin", description := none } rfl (fun _ => rfl) false,
   (C4_missing_target_policy.2.2.2.2 missingRoleBackend "demo" "ghost" rfl).2⟩

/-! ## C3 — Create-path conflict policy -/

/-- C3 counterexample: for realm roles (and likewise client roles) a
conflict signal raised by the create call itself IS fatal.  With a backend
whose probe answers 404 and whose create answers 409, the roles create
batch aborts with a remote error instead of recording a skip —
contradicting "a conflict signal raised by the create call itself is
treated as skipped, never fatal — for every resource type". -/
theorem C3_conflict_policy_counterexample :
    runRolesCreate conflictRolesBackend ["admin"] [] ["demo"] (0, 0)
      = ([Call.getRole "demo" "admin", Call.createRole "demo" "admin" ""],
         .error (.remote "failed creating role admin")) ∧
    clientRolesCreateItem conflictClientRolesBackend [] 1 "demo" "uuid" 0 "ops"
      = ([Call.getClientRole "demo" "uuid" "ops",
          Call.createClientRole "demo" "uuid" "ops" ""],
         .error (.remote "failed creating client role ops")) :=
  ⟨rfl, rfl⟩

/-- C3 amended: every create path probes first and a found key yields a
skip with no mutating call; a conflict raised by the create call itself is
downgraded to a skip for users, clients and client scopes, but aborts the
batch for realm roles and client roles. -/
theorem C3_conflict_policy :
    (∀ (B : RolesBackend) (descs : List String) (total : Nat)
        (realm : String) (i : Nat) (rn : String) (role : RoleRep),
      B.getRealmRole realm rn = .ok role →
      rolesCreateItem B descs total realm i rn
        = ([Call.getRole realm rn], .ok .skipped)) ∧
    (∀ (B : RolesBackend) (descs : List String) (total : Nat)
        (realm : String) (i : Nat) (rn : String),
      B.getRealmRole realm rn = .error .notFound →
      B.createRealmRole realm rn (bindOneN descs total i) = .error .conflict →
      rolesCreateItem B descs total realm i rn
        = ([Call.getRole realm rn,
            Call.createRole realm rn (bindOneN descs total i)],
           .error (.remote ("failed creating role " ++ rn)))) ∧
    (∀ (B : ClientRolesBackend) (descs : List String) (total : Nat)
        (realm clientID : String) (i : Nat) (rn : String) (role : RoleRep),
      B.getClientRole realm clientID rn = .ok role →
      clientRolesCreateItem B descs total realm clientID i rn
        = ([Call.getClientRole realm clientID rn], .ok .skipped)) ∧
    (∀ (B : ClientRolesBackend) (descs : List String) (total : Nat)
        (realm clientID : String) (i : Nat) (rn : String),
      B.getClientRole realm clientID rn = .error .notFound →
      B.createClientRole realm clientID rn (bindOneN descs total i)
        = .error .conflict →
      clientRolesCreateItem B descs total realm clientID i rn
        = ([Call.getClientRole realm clientID rn,
            Call.createClientRole realm clientID rn (bindOneN descs total i)],
           .error (.remote ("failed creating client role " ++ rn)))) ∧
    (∀ (B : ScopesBackend) (descs protocols : List String) (total : Nat)
        (realm : String) (i : Nat) (n : String) (scopes : List ScopeRep)
        (s : ScopeRep),
      B.getClientScopes realm = .ok scopes →
      scopes.find? (fun s => s.name = some n) = some s →
      clientScopesCreateItem B descs protocols total realm i n
        = ([Call.getClientScopes realm], .ok .skipped)) ∧
    (∀ (B : ScopesBackend) (descs protocols : List String) (total : Nat)
        (realm : String) (i : Nat) (n : String) (scopes : List ScopeRep),
      B.getClientScopes realm = .ok scopes →
      scopes.find? (fun s => s.name = some n) = none →
      B.createClientScope realm n (bindOneN descs total i)
          (bindScopeProtocol protocols total i) = .error .conflict →
      clientScopesCreateItem B descs protocols total realm i n
        = ([Call.getClientScopes realm, Call.createClientScope realm n],
           .ok .skipped)) ∧
    (∀ (B : UsersBackend) (env : UsersCreateEnv) (realm : String) (i : Nat)
        (un : String) (us : List UserRep),
      B.getUsers realm un = .ok us → us ≠ [] →
      usersCreateItem B env realm i un = ([Call.getUsers realm un], .ok .skipped)) ∧
    (∀ (B : UsersBackend) (env : UsersCreateEnv) (realm : String) (i : Nat)
        (un : String),
      B.getUsers realm un = .ok [] →
      bindOneNChars env.passwords env.usernames.length i ≠ [] →
      validatePasswordStrength
          (bindOneNChars env.passwords env.usernames.length i) = .ok () →
      (∀ p : UserPayload, B.createUser realm p = .error .conflict) →
      usersCreateItem B env realm i un
        = ([Call.getUsers realm un, Call.createUser realm un], .ok .skipped)) ∧
    (∀ (B : ClientsBackend) (env : ClientsEnv) (realm : String) (i : Nat)
        (cid : String) (cs : List ClientRep) (c : ClientRep),
      B.getClients realm cid = .ok cs →
      cs.find? (fun c => c.clientID = some cid) = some c → c.id.isSome →
      clientsCreateItem B env realm i cid
        = ([Call.getClients realm cid], .ok .skipped)) ∧
    (∀ (B : ClientsBackend) (env : ClientsEnv) (realm : String) (i : Nat)
        (cid : String) (f : BoundClient),
      B.getClients realm cid = .ok [] →
      bindClientFields env i = some f →
      (∀ f' : BoundClient, B.createClient realm cid f' = .error .conflict) →
      clientsCreateItem B env realm i cid
        = ([Call.getClients realm cid, Call.createClient realm cid],
           .ok .skipped)) := by
  refine ⟨?_, ?_, ?_, ?_, ?_, ?_, ?_, ?_, ?_, ?_⟩
  · intro B descs total realm i rn role hget
    simp [rolesCreateItem, hget]
  · intro B descs total realm i rn hget hcreate
    simp [rolesCreateItem, hget, hcreate]
  · intro B descs total realm clientID i rn role hget
    simp [clientRolesCreateItem, hget]
  · intro B descs total realm clientID i rn hget hcreate
    simp [clientRolesCreateItem, hget, hcreate]
  · intro B descs protocols total realm i n scopes s hlist hfind
    simp [clientScopesCreateItem, findClientScopeByName, hlist, hfind]
  · intro B descs protocols total realm i n scopes hlist hfind hcreate
    simp [clientScopesCreateItem, findClientScopeByName, hlist, hfind, hcreate]
  · intro B env realm i un us hget hne
    simp [usersCreateItem, hget, hne]
  · intro B env realm i un hget hpw hval hcu
    simp [usersCreateItem, hget, hpw, hval, hcu]
  · intro B env realm i cid cs c hget hfind hid
    simp [clientsCreateItem, getClientByClientID, hget, hfind, hid]
  · intro B env realm i cid f hget hbind hcu
    simp [clientsCreateItem, getClientByClientID, hget, hbind, hcu]

/-- C3 witness: the amended policy at concrete inputs — a create-call
conflict is skipped for client scopes, users and clients, and the probe
hit is skipped for roles. -/
theorem C3_conflict_policy_witness :
    clientScopesCreateItem conflictScopesBackend [] [] 1 "demo" 0 "email"
      = ([Call.getClientScopes "demo", Call.createClientScope "demo" "email"],
         .ok .skipped) ∧
    usersCreateItem conflictUsersBackend conflictUsersEnv "demo" 0 "alice"
      = ([Call.getUsers "demo" "alice", Call.createUser "demo" "alice"],
         .ok .skipped) ∧
    clientsCreateItem conflictClientsBackend conflictClientsEnv "demo" 0 "web"
      = ([Call.getClients "demo" "web", Call.createClient "demo" "web"],
         .ok .skipped) ∧
    rolesCreateItem presentRoleBackend [] 1 "demo" 0 "admin"
      = ([Call.getRole "demo" "admin"], .ok .skipped) := by
  refine ⟨?_, ?_, ?_, ?_⟩
  · exact C3_conflict_policy.2.2.2.2.2.1 conflictScopesBackend [] [] 1 "demo" 0
      "email" [] rfl rfl rfl
  · exact C3_conflict_policy.2.2.2.2.2.2.2.1 conflictUsersBackend
      conflictUsersEnv "demo" 0 "alice" rfl (by decide) rfl
      (fun _ => rfl)
  · exact C3_conflict_policy.2.2.2.2.2.2.2.2.2 conflictClientsBackend
      conflictClientsEnv "demo" 0 "web"
      { name := "", secret := "", protocol := "", rootURL := "", baseURL := "",
        enabled := true, publicClient := false, stdFlow := false,
        direct := false, implicit := false, svcAcct := false }
      rfl rfl (fun _ => rfl)
  · exact C3_conflict_policy.1 presentRoleBackend [] 1 "demo" 0 "admin"
      { name := some "admin", description := none } rfl

/-! ## C1 — Field Binder cardinality contract -/

/-- C1: the clients create command does NOT apply the 0/1/N cardinality
contract.  With three `--client-id` values and two `--name` values
(L = 2, outside 0/1/N) its validation phase accepts the input, the batch
performs remote calls — probing and creating the first two clients — and
then the `pick` binding of the third item indexes `cliNames[2]` out of
range, a Go runtime panic, instead of a ValidationError raised before any
remote call.  The roles, users, client-roles and client-scopes commands do
validate the same rule up front (`rolesCreateValidate`,
`usersCreateValidate`, `clientScopesCreateValidate`). -/
theorem C1_clients_cardinality_bug :
    clientsCreateValidate cardFlags = .ok () ∧
    ¬(cardFlags.cliNames.length = 0 ∨ cardFlags.cliNames.length = 1 ∨
      cardFlags.cliNames.length = cardFlags.cliIDs.length) ∧
    pick cardFlags.cliNames 2 = none ∧
    runClientsCreate cardBackend cardFlags ["master"] (0, 0)
      = ([Call.getClients "master" "a", Call.createClient "master" "a",
          Call.getClients "master" "b", Call.createClient "master" "b",
          Call.getClients "master" "c"],
         .error .panicIndex) ∧
    rolesCreateValidate ["a", "b", "c"] ["x", "y"]
      = .error "invalid descriptions" ∧
    usersCreateValidate
        ⟨["a", "b", "c"], ["x", "y"], [], [], [], true, [], [], "", fun _ => 0⟩
      = .error "invalid --email" ∧
    clientScopesCreateValidate ["a", "b", "c"] ["x", "y"] []
      = .error "invalid descriptions" :=
  ⟨rfl, by decide, rfl, rfl, rfl, rfl, rfl⟩

/-! ## Password-engine helper lemmas -/

theorem drawFrom_mem (pool : List Char) (r : Nat) (h : pool ≠ []) :
    drawFrom pool r ∈ pool := by
  have hlen : 0 < pool.length := List.length_pos.mpr h
  have hlt : r % pool.length < pool.length := Nat.mod_lt _ hlen
  rw [drawFrom, List.getD_eq_getElem pool ' ' hlt]
  exact List.getElem_mem hlt

theorem lowerChars_lower : ∀ c ∈ lowerChars, goIsLower c = true := by decide

theorem upperChars_upper : ∀ c ∈ upperChars, goIsUpper c = true := by decide

theorem digitChars_digit : ∀ c ∈ digitChars, goIsDigit c = true := by decide

theorem specialChars_special : ∀ c ∈ specialChars, goIsSpecial c = true := by
  decide

theorem lower_sub_all : ∀ c ∈ lowerChars, c ∈ allPwChars := by decide

theorem upper_sub_all : ∀ c ∈ upperChars, c ∈ allPwChars := by decide

theorem digit_sub_all : ∀ c ∈ digitChars, c ∈ allPwChars := by decide

theorem special_sub_all : ∀ c ∈ specialChars, c ∈ allPwChars := by decide

theorem allPwChars_ascii : ∀ c ∈ allPwChars, utf8Len c = 1 := by decide

theorem utf8ByteLength_of_ascii (l : List Char) (h : ∀ c ∈ l, utf8Len c = 1) :
    utf8ByteLength l = l.length := by
  induction l with
  | nil => rfl
  | cons c cs ih =>
    have hc := h c (List.mem_cons_self c cs)
    have hcs : ∀ x ∈ cs, utf8Len x = 1 :=
      fun x hx => h x (List.mem_cons_of_mem c hx)
    have ih' := ih hcs
    simp only [utf8ByteLength, List.map_cons, List.sum_cons, List.length_cons]
      at ih' ⊢
    omega

theorem pool_sub_all : ∀ p ∈ pwPools, ∀ c ∈ p, c ∈ allPwChars := by decide

theorem generated_mem_all (n : Nat) (draw : Nat → Nat) (c : Char)
    (h : c ∈ (List.range n).map fun i =>
        if i < 4 then drawFrom (pwPools.getD i []) (draw i)
        else drawFrom allPwChars (draw i)) : c ∈ allPwChars := by
  rw [List.mem_map] at h
  obtain ⟨i, _, rfl⟩ := h
  by_cases h4 : i < 4
  · rw [if_pos h4]
    have hp : pwPools.getD i [] ∈ pwPools := by interval_cases i <;> decide
    have hne : pwPools.getD i [] ≠ [] := by interval_cases i <;> decide
    exact pool_sub_all _ hp _ (drawFrom_mem _ _ hne)
  · rw [if_neg h4]
    exact drawFrom_mem allPwChars (draw i) (by decide)

theorem validate_ok_of_classes (pw : List Char) (hlen : 6 ≤ utf8ByteLength pw)
    (h1 : pw.any goIsLower = true) (h2 : pw.any goIsUpper = true)
    (h3 : pw.any goIsDigit = true) (h4 : pw.any goIsSpecial = true) :
    validatePasswordStrength pw = .ok () := by
  unfold validatePasswordStrength
  rw [if_neg (by omega)]
  simp [h1, h2, h3, h4]

/-! ## C5 — Password generation contract -/

/-- C5 counterexample: a requested length of 4 is accepted by the
generator (it fails only below 4), but the produced 4-character password
is rejected by the validator's 6-character minimum — so it is NOT the case
that every password produced by the generator passes the validator. -/
theorem C5_password_generation_counterexample :
    generateStrongPassword 4 (fun _ => 0) = .ok ('a' :: 'A' :: '0' :: '!' :: []) ∧
    validatePasswordStrength ('a' :: 'A' :: '0' :: '!' :: [])
      = .error "password must be at least 6 characters long" :=
  ⟨rfl, rfl⟩

/-- C5 amended: for every requested length n and every outcome of the
random draws, the generator fails iff n < 4; on success it returns exactly
n characters with at least one of each of the four classes; and every
generated password of requested length at least 6 passes the validator
(the system's own use requests length 12; generated lengths 4 and 5 are
rejected by the validator's 6-character minimum). -/
theorem C5_password_generation :
    (∀ (n : Nat) (draw : Nat → Nat), n < 4 →
      generateStrongPassword n draw
        = .error "password length must be at least 4") ∧
    (∀ (n : Nat) (draw : Nat → Nat), 4 ≤ n →
      ∃ pw, generateStrongPassword n draw = .ok pw) ∧
    (∀ (n : Nat) (draw : Nat → Nat) (pw : List Char),
      generateStrongPassword n draw = .ok pw →
      4 ≤ n ∧ pw.length = n ∧ pw.any goIsLower = true ∧
      pw.any goIsUpper = true ∧ pw.any goIsDigit = true ∧
      pw.any goIsSpecial = true) ∧
    (∀ (n : Nat) (draw : Nat → Nat) (pw : List Char), 6 ≤ n →
      generateStrongPassword n draw = .ok pw →
      validatePasswordStrength pw = .ok ()) := by
  have key : ∀ (n : Nat) (draw : Nat → Nat) (pw : List Char),
      generateStrongPassword n draw = .ok pw →
      4 ≤ n ∧ pw.length = n ∧ pw.any goIsLower = true ∧
      pw.any goIsUpper = true ∧ pw.any goIsDigit = true ∧
      pw.any goIsSpecial = true ∧ (∀ c ∈ pw, c ∈ allPwChars) := by
    intro n draw pw h
    unfold generateStrongPassword at h
    split at h
    · exact absurd h (by simp)
    next hn =>
      have hn4 : 4 ≤ n := by omega
      have hpw : pw = (List.range n).map fun i =>
          if i < 4 then drawFrom (pwPools.getD i []) (draw i)
          else drawFrom allPwChars (draw i) := by
        injection h with h'
        exact h'.symm
      subst hpw
      refine ⟨hn4, by simp, ?_, ?_, ?_, ?_, fun c hc => generated_mem_all n draw c hc⟩
      · apply List.any_eq_true.mpr
        refine ⟨drawFrom lowerChars (draw 0), ?_, ?_⟩
        · have h0 : (0 : Nat) ∈ List.range n := List.mem_range.mpr (by omega)
          simpa [pwPools] using List.mem_map_of_mem _ h0
        · exact lowerChars_lower _ (drawFrom_mem lowerChars (draw 0) (by decide))
      · apply List.any_eq_true.mpr
        refine ⟨drawFrom upperChars (draw 1), ?_, ?_⟩
        · have h1 : (1 : Nat) ∈ List.range n := List.mem_range.mpr (by omega)
          simpa [pwPools] using List.mem_map_of_mem _ h1
        · exact upperChars_upper _ (drawFrom_mem upperChars (draw 1) (by decide))
      · apply List.any_eq_true.mpr
        refine ⟨drawFrom digitChars (draw 2), ?_, ?_⟩
        · have h2 : (2 : Nat) ∈ List.range n := List.mem_range.mpr (by omega)
          simpa [pwPools] using List.mem_map_of_mem _ h2
        · exact digitChars_digit _ (drawFrom_mem digitChars (draw 2) (by decide))
      · apply List.any_eq_true.mpr
        refine ⟨drawFrom specialChars (draw 3), ?_, ?_⟩
        · have h3 : (3 : Nat) ∈ List.range n := List.mem_range.mpr (by omega)
          simpa [pwPools] using List.mem_map_of_mem _ h3
        · exact specialChars_special _
            (drawFrom_mem specialChars (draw 3) (by decide))
  refine ⟨?_, ?_, ?_, ?_⟩
  · intro n draw h
    unfold generateStrongPassword
    rw [if_pos h]
  · intro n draw h
    refine ⟨(List.range n).map fun i =>
      if i < 4 then drawFrom (pwPools.getD i []) (draw i)
      else drawFrom allPwChars (draw i), ?_⟩
    unfold generateStrongPassword
    rw [if_neg (by omega)]
  · intro n draw pw h
    obtain ⟨a, b, c, d, e, f, _⟩ := key n draw pw h
    exact ⟨a, b, c, d, e, f⟩
  · intro n draw pw h6 h
    obtain ⟨_, hlen, c, d, e, f, hmem⟩ := key n draw pw h
    refine validate_ok_of_classes pw ?_ c d e f
    rw [utf8ByteLength_of_ascii pw (fun x hx => allPwChars_ascii x (hmem x hx))]
    omega

/-- C5 witness: the system's own request — length 12 — generates a
password that passes the validator. -/
theorem C5_password_generation_witness :
    validatePasswordStrength
        ('a' :: 'A' :: '0' :: '!' :: 'a' :: 'a' :: 'a' :: 'a' :: 'a' :: 'a'
          :: 'a' :: 'a' :: [])
      = .ok () :=
  C5_password_generation.2.2.2 12 (fun _ => 0) _ (by omega) rfl

/-! ## C6 — Password validation contract -/

theorem any_congr_pred {l : List Char} {p q : Char → Bool}
    (h : ∀ c ∈ l, p c = q c) : l.any p = l.any q := by
  induction l with
  | nil => rfl
  | cons c cs ih =>
    simp only [List.any_cons]
    rw [h c (List.mem_cons_self c cs),
      ih (fun x hx => h x (List.mem_cons_of_mem c hx))]

theorem goIsLower_ascii (c : Char) (h : c.toNat < 128) :
    goIsLower c = asciiLower c := by
  rw [Bool.eq_iff_iff]
  simp only [goIsLower, asciiLower, Bool.and_eq_true, Bool.or_eq_true,
    decide_eq_true_eq, beq_iff_eq]
  omega

theorem goIsUpper_ascii (c : Char) (h : c.toNat < 128) :
    goIsUpper c = asciiUpper c := by
  rw [Bool.eq_iff_iff]
  simp only [goIsUpper, asciiUpper, Bool.and_eq_true, Bool.or_eq_true,
    decide_eq_true_eq]
  omega

theorem goIsDigit_ascii (c : Char) : goIsDigit c = asciiDigit c := rfl

theorem goIsSpecial_ascii (c : Char) (h : c.toNat < 128) :
    goIsSpecial c = asciiSpecial c := by
  rw [goIsSpecial, asciiSpecial, goIsLower_ascii c h, goIsUpper_ascii c h,
    goIsDigit_ascii]

/-- C6 counterexample: the claim says the validator rejects every string
shorter than 6 characters, but the length check of the code is on the
UTF-8 BYTE length — the 5-character string "Aa1!ñ" occupies 6 bytes and is
accepted. -/
theorem C6_password_validation_counterexample :
    validatePasswordStrength ("Aa1!ñ".toList) = .ok () ∧
    ("Aa1!ñ".toList).length < 6 :=
  ⟨rfl, by decide⟩

/-- C6 amended: for ASCII-only input the claim holds verbatim — the
validator rejects exactly the strings of length below 6 or lacking one of
the four classes, where any character that is not an ASCII letter or digit
counts as special, and the rejection is the length message exactly for the
length violation and the missing-class message otherwise.  (In general the
length check is on the UTF-8 byte count and the classification is
Unicode-aware, so the claim fails on non-ASCII input.) -/
theorem C6_password_validation (pw : List Char)
    (hascii : ∀ c ∈ pw, c.toNat < 128) :
    (validatePasswordStrength pw
        = .error "password must be at least 6 characters long"
      ↔ pw.length < 6) ∧
    (validatePasswordStrength pw
        = .error "password must contain at least one lowercase letter, one uppercase letter, one digit, and one special character"
      ↔ (6 ≤ pw.length ∧
          ¬(pw.any asciiLower = true ∧ pw.any asciiUpper = true ∧
            pw.any asciiDigit = true ∧ pw.any asciiSpecial = true))) ∧
    (validatePasswordStrength pw = .ok ()
      ↔ (6 ≤ pw.length ∧ pw.any asciiLower = true ∧ pw.any asciiUpper = true ∧
          pw.any asciiDigit = true ∧ pw.any asciiSpecial = true)) := by
  have hb : utf8ByteLength pw = pw.length :=
    utf8ByteLength_of_ascii pw (fun c hc => by
      have h := hascii c hc
      unfold utf8Len
      rw [if_pos (by omega)])
  have hL : pw.any goIsLower = pw.any asciiLower :=
    any_congr_pred (fun c hc => goIsLower_ascii c (hascii c hc))
  have hU : pw.any goIsUpper = pw.any asciiUpper :=
    any_congr_pred (fun c hc => goIsUpper_ascii c (hascii c hc))
  have hD : pw.any goIsDigit = pw.any asciiDigit :=
    any_congr_pred (fun c _ => goIsDigit_ascii c)
  have hS : pw.any goIsSpecial = pw.any asciiSpecial :=
    any_congr_pred (fun c hc => goIsSpecial_ascii c (hascii c hc))
  unfold validatePasswordStrength
  rw [hb, hL, hU, hD, hS]
  by_cases hlen : pw.length < 6
  · rw [if_pos hlen]
    refine ⟨⟨fun _ => hlen, fun _ => rfl⟩, ⟨?_, ?_⟩, ⟨?_, ?_⟩⟩
    · intro h
      exact absurd (Except.error.inj h) (by decide)
    · intro h
      omega
    · intro h
      exact absurd h (by simp)
    · intro h
      omega
  · rw [if_neg hlen]
    have hlen6 : 6 ≤ pw.length := by omega
    cases hA : pw.any asciiLower <;> cases hB : pw.any asciiUpper <;>
      cases hC : pw.any asciiDigit <;> cases hD2 : pw.any asciiSpecial <;>
      simp [hlen, hlen6]

/-- C6 witness: the amended characterization applied to a concrete ASCII
password containing all four classes. -/
theorem C6_password_validation_witness :
    validatePasswordStrength ("Aa1!xy".toList) = .ok () :=
  (C6_password_validation ("Aa1!xy".toList) (by decide)).2.2.mpr (by decide)

end KC
